import Mathlib

set_option maxRecDepth 8000

/-!
Verification development for the EMIT-L2A-RFL retrieval core.

The definitions below are a shallow embedding of the Python sources:
  * `EMITL2ARFL/validate_NetCDF_file.py`  (`validate_NetCDF_file`)
  * `EMITL2ARFL/file_utils.py`            (`wait_for_file_stability`, `safe_file_remove`)
  * `EMITL2ARFL/retrieve_EMIT_L2A_RFL_granule.py`
        (`retrieve_EMIT_L2A_RFL_granule`, `_identify_files`, `_download_files`)

The local filesystem is a map from path strings to file states; a NetCDF
file is abstracted to the observations the validator makes of it (size,
result of opening, dimension and variable counts, readability of variable
shapes).  Downloads, stat samples and unlink attempts are driven by an
explicit environment so that the retry state machine is a pure function.
Side effects that the claims talk about (removals, transport invocations,
backoff sleeps) are recorded in an event trace.
-/

deriving instance DecidableEq for Except

/-! ## String helpers mirroring Python string and posixpath operations -/

/-- Python `needle in haystack` substring containment, on character lists. -/
def charsContains (needle : List Char) : List Char → Bool
  | [] => needle.isEmpty
  | c :: t => needle.isPrefixOf (c :: t) || charsContains needle t

/-- Python `needle in haystack` on strings (substring containment). -/
def strContains (haystack needle : String) : Bool :=
  charsContains needle.toList haystack.toList

/-- Python `s.startswith(p)`. -/
def strStartsWith (s p : String) : Bool :=
  p.toList.isPrefixOf s.toList

/-- Python `s.endswith(p)`. -/
def strEndsWith (s p : String) : Bool :=
  p.toList.reverse.isPrefixOf s.toList.reverse

/-- `posixpath.basename`: the part of the path after the last slash. -/
def basenameChars (cs : List Char) : List Char :=
  (cs.reverse.takeWhile (fun c => c != '/')).reverse

/-- Index of the last dot in a character list, if any. -/
def lastDotIdx (b : List Char) : Option Nat :=
  match b.reverse.findIdx? (fun c => c == '.') with
  | none => none
  | some j => some (b.length - 1 - j)

/-- `posixpath.splitext(b)[0]` on a basename: drop the extension after the
last dot, unless every character before that dot is itself a dot
(CPython keeps names such as `.bashrc` whole). -/
def splitextStemChars (b : List Char) : List Char :=
  match lastDotIdx b with
  | none => b
  | some i => if (b.take i).any (fun c => c != '.') then b.take i else b

/-- `posixpath.basename` on strings. -/
def pathBasename (s : String) : String := String.mk (basenameChars s.toList)

/-- `posixpath.splitext(posixpath.basename(url))[0]`: the granule identifier
parsed from a data link (line 59 of `retrieve_EMIT_L2A_RFL_granule.py`). -/
def granule_ID_of (url : String) : String :=
  String.mk (splitextStemChars (basenameChars url.toList))

/-- `posixpath.join` for the two-argument uses in the source.  An absolute
second component replaces the first; otherwise the components are joined
with a single slash. -/
def joinPath (a b : String) : String :=
  if strStartsWith b "/" then b
  else if a = "" || strEndsWith a "/" then a ++ b
  else a ++ "/" ++ b

/-! ## File states and the NetCDF validator -/

/-- What happens when `netCDF4.Dataset(path, "r")` is opened on the file.
`opened nd nv sh` : the container opens, exposing `nd` dimensions and `nv`
variables; `sh` records whether the shapes of the first (up to 3) variables
can be read (only consulted when `check_integrity` is set).
`osError` : an `OSError`/`IOError` is raised while opening — the source
distinguishes three message texts (HDF error code -101, permission, other)
but raises `NetCDFReadError` for all of them.
`runtimeError` : a `RuntimeError` (NetCDF format problem).
`otherError` : any other exception. -/
inductive OpenResult where
  | opened (ndims nvars : Nat) (shapesReadable : Bool)
  | osError
  | runtimeError
  | otherError
deriving DecidableEq

/-- Observable state of a local NetCDF file: its size in bytes and the
result of opening it. -/
structure NCFile where
  size : Nat
  openResult : OpenResult
deriving DecidableEq

/-- State of a path on the local filesystem. -/
inductive FSFile where
  | absent
  | file (f : NCFile)
deriving DecidableEq

/-- `os.path.exists` is false exactly on `absent`. -/
def isAbsent : FSFile → Bool
  | .absent => true
  | .file _ => false

/-- The exception taxonomy of `EMITL2ARFL/exceptions.py`; every constructor
is a `NetCDFValidationError`. -/
inductive VErr where
  | NetCDFFileNotFoundError
  | NetCDFEmptyFileError
  | NetCDFCorruptedError
  | NetCDFReadError
deriving DecidableEq

/-- `validate_NetCDF_file` (lines 60-137 of `validate_NetCDF_file.py`):
existence check, then size check, then open; an opened container with zero
dimensions and zero variables is corrupted (that `NetCDFCorruptedError` is
re-wrapped by the catch-all `except Exception` clause, but the exception
class reaching the caller is still `NetCDFCorruptedError`); with
`check_integrity` set, unreadable variable shapes are also corrupted.
`OSError`/`IOError` maps to `NetCDFReadError`; `RuntimeError` and any other
exception map to `NetCDFCorruptedError`.  The function is total: every
outcome is one of the four taxonomy errors or success. -/
def validate_NetCDF_file (f : FSFile) (check_integrity : Bool) : Except VErr Unit :=
  match f with
  | .absent => .error .NetCDFFileNotFoundError
  | .file st =>
    if st.size = 0 then .error .NetCDFEmptyFileError
    else
      match st.openResult with
      | .opened nd nv sh =>
        if nd = 0 && nv = 0 then .error .NetCDFCorruptedError
        else if check_integrity && !sh then .error .NetCDFCorruptedError
        else .ok ()
      | .osError => .error .NetCDFReadError
      | .runtimeError => .error .NetCDFCorruptedError
      | .otherError => .error .NetCDFCorruptedError

/-! ## `wait_for_file_stability` (file_utils.py lines 45-103)

The sequence of `filepath.stat().st_size` observations is an explicit
function `samples : Nat → Except Unit Nat` (`.error ()` models an exception
raised while stat-ing).  `time.sleep(check_interval)` has no observable
effect on the result and is not recorded here. -/

/-- The `for i in range(max_checks)` loop of `wait_for_file_stability`,
with the remaining check budget as the recursion fuel. -/
def stabilityLoop (samples : Nat → Except Unit Nat) (check_size : Bool)
    (i : Nat) (previous : Option Nat) (stable_count : Nat) : Nat → Bool
  | 0 => false
  | fuel + 1 =>
    match samples i with
    | .error _ => false
    | .ok cur =>
      match check_size, previous with
      | true, some pv =>
        if cur = pv then
          if stable_count + 1 ≥ 2 then true
          else stabilityLoop samples true (i + 1) (some cur) (stable_count + 1) fuel
        else stabilityLoop samples true (i + 1) (some cur) 0 fuel
      | _, _ => stabilityLoop samples check_size (i + 1) (some cur) stable_count fuel

/-- `wait_for_file_stability(filepath, check_interval, max_checks, check_size)`:
false when the file does not exist; otherwise the sampling loop with
`previous_size = None` and `stable_count = 0`. -/
def wait_for_file_stability (fileExists : Bool) (samples : Nat → Except Unit Nat)
    (check_size : Bool) (max_checks : Nat) : Bool :=
  if fileExists then stabilityLoop samples check_size 0 none 0 max_checks else false

/-! ## `safe_file_remove` (file_utils.py lines 106-144)

`unlinkOk k` tells whether the `filepath.unlink()` call of attempt `k`
succeeds (`false` models an exception).  A successful unlink removes the
file, so the immediately following `not filepath.exists()` re-check passes
and the function returns true; the delayed-visibility network-filesystem
case in which a successful unlink is still visible is not modelled.  The
trace records unlink calls, `time.sleep(delay)` calls and existence
re-checks. -/

inductive RemoveEvent where
  | unlinkCall
  | sleepDelay
  | recheck
deriving DecidableEq

/-- The `for attempt in range(max_attempts)` loop of `safe_file_remove`.
On success: unlink, sleep, re-check, return true.  On an exception: sleep
only when `attempt < max_attempts - 1`, then continue. -/
def removeLoop (unlinkOk : Nat → Bool) (max_attempts : Nat) (attempt : Nat) :
    Nat → Bool × List RemoveEvent
  | 0 => (false, [])
  | fuel + 1 =>
    if unlinkOk attempt then
      (true, [.unlinkCall, .sleepDelay, .recheck])
    else
      let tail := removeLoop unlinkOk max_attempts (attempt + 1) fuel
      (tail.1,
        [RemoveEvent.unlinkCall]
          ++ (if attempt < max_attempts - 1 then [RemoveEvent.sleepDelay] else [])
          ++ tail.2)

/-- `safe_file_remove(filepath, max_attempts, delay)`: a nonexistent path
returns true at once with no side effects; otherwise the attempt loop runs. -/
def safe_file_remove (fileExists : Bool) (unlinkOk : Nat → Bool)
    (max_attempts : Nat) : Bool × List RemoveEvent :=
  if fileExists then removeLoop unlinkOk max_attempts 0 max_attempts
  else (true, [])

/-! ## The retrieval state machine (retrieve_EMIT_L2A_RFL_granule.py) -/

/-- The local filesystem: a state for every path string. -/
abbrev FS := String → FSFile

/-- Observable side effects of one retrieval call.
`sleep` is the exponential-backoff `time.sleep(wait_time)` of line 141;
`stabilizePause` is the fixed half-second pause of line 163;
`removeFile` is a `safe_file_remove` of a file that failed validation;
`download` is one `earthaccess.download` invocation: the URL list passed to
it, the local paths whose contents the transport actually wrote, and the
0-indexed `retry_count` of the attempt; `stabilityWait` is a
`wait_for_file_stability` call on an existing file after a download. -/
inductive Event where
  | sleep (seconds : ℚ)
  | stabilizePause (seconds : ℚ)
  | removeFile (path : String)
  | download (urls : List String) (written : List String) (attempt : Nat)
  | stabilityWait (path : String)
deriving DecidableEq

/-- Errors `retrieve_EMIT_L2A_RFL_granule` can raise.
`noDataLinks` : `remote_granule.data_links()[0]` on an empty link list
(an `IndexError` in Python, modelled as a distinct outcome);
`notEMITL2ARFL` : the `ValueError` of line 63 (bad granule identifier);
`rolesUnidentified` : the `ValueError` of line 101 (missing RFL/MASK/RFLUNCERT);
`retryExhausted` : the `FileNotFoundError` of line 204, carrying the
`files_to_download` list that its message interpolates. -/
inductive RetrieveError where
  | noDataLinks
  | notEMITL2ARFL
  | rolesUnidentified
  | retryExhausted (files_to_download : List String)
deriving DecidableEq

/-- Modelled from the spec: `EMITL2ARFLGranule` (the `GranuleFileSet` of the
spec) is defined in `EMITL2ARFLGranule.py`, which is not among the given
sources; per the spec it is an immutable value holding the three validated
local paths, one per role, with no behaviour beyond construction. -/
structure EMITL2ARFLGranule where
  reflectance_filename : String
  mask_filename : String
  uncertainty_filename : String
deriving DecidableEq

/-- The environment driving one retrieval call.
`fetchOk k` : whether the `earthaccess.download` call of attempt `k`
returns (rather than raising, which `_download_files` converts to `False`);
`fetch k p` : the file state the transport writes at local path `p` during
attempt `k`, consulted only for paths that do not already exist. -/
structure Env where
  fetchOk : Nat → Bool
  fetch : Nat → String → FSFile

/-- Per-call configuration assembled before the retry loop: the remote data
links, the projected local paths, `retry_delay`, `skip_validation`, and the
`file_info` association of lines 105-109 in its insertion order
(reflectance, mask, uncertainty). -/
structure Cfg where
  links : List String
  localFiles : List String
  retryDelay : ℚ
  skipValidation : Bool
  fileInfo : List (String × String)

/-- `_identify_files` (lines 74-79): first file containing `_RFL_` but not
`_RFLUNCERT_`, first file containing `_MASK_`, first file containing
`_RFLUNCERT_`. -/
def _identify_files (files : List String) :
    Option String × Option String × Option String :=
  (files.find? (fun f => strContains f "_RFL_" && !strContains f "_RFLUNCERT_"),
   files.find? (fun f => strContains f "_MASK_"),
   files.find? (fun f => strContains f "_RFLUNCERT_"))

/-- Lines 66-71: the projected local path of every data link, inside the
per-granule directory `download_directory/<granule_ID>/`. -/
def expected_local_files (download_directory l0 : String) (links : List String) :
    List String :=
  links.map (fun v => joinPath (joinPath download_directory (granule_ID_of l0)) (pathBasename v))

/-- The validation-and-removal pass shared by the initial cache check
(lines 113-126) and the in-loop re-validation (lines 170-180): validate
each `(path, file_type)` pair in order; on a validation failure, remove the
file when it exists (the removal event is recorded; `safe_file_remove` is
modelled as succeeding, its normal case) and append the path to
`files_to_download`.  `checkRemove` is the effect on the filesystem of the
`if exists(filepath): safe_file_remove(filepath, max_attempts=3)` block. -/
def checkRemove (fs : FS) (p : String) : FS :=
  if isAbsent (fs p) then fs else fun q => if q = p then .absent else fs q

def checkFiles (fs : FS) : List (String × String) → List Event × FS × List String
  | [] => ([], fs, [])
  | (p, _) :: rest =>
    match validate_NetCDF_file (fs p) false with
    | .ok _ => checkFiles fs rest
    | .error _ =>
      let evs0 := if isAbsent (fs p) then ([] : List Event) else [Event.removeFile p]
      let R := checkFiles (checkRemove fs p) rest
      (evs0 ++ R.1, R.2.1, p :: R.2.2)

/-- Lines 111-132: the initial check.  With validation, `checkFiles`; with
`skip_validation`, only raw existence decides what needs downloading. -/
def initialCheck (c : Cfg) (fs : FS) : List Event × FS × List String :=
  if c.skipValidation then
    ([], fs, (c.fileInfo.map Prod.fst).filter (fun p => isAbsent (fs p)))
  else checkFiles fs c.fileInfo

/-- Line 139: `retry_delay * (2 ** (retry_count - 1))`, the exponential
backoff slept before attempt `retry_count + 1` (so before the 1-indexed
attempt `k + 1` for `retry_count = k ≥ 1`). -/
def backoffWait (retry_delay : ℚ) (retry_count : Nat) : ℚ :=
  retry_delay * 2 ^ (retry_count - 1)

/-- One `earthaccess.download(urls, local_path, threads)` call (line 91),
modelled from the spec: the transport is an external collaborator that
"may silently skip locators whose destination already exists"; here it
skips exactly the existing destinations and writes `env.fetch k p` at each
absent destination `p`.  Returns the new filesystem and the written paths. -/
def doDownload (c : Cfg) (env : Env) (k : Nat) (fs : FS) : FS × List String :=
  let written := c.localFiles.filter (fun p => isAbsent (fs p))
  (fun q => if written.contains q then env.fetch k q else fs q, written)

/-- One iteration of the retry loop (lines 136-186) at `retry_count = k`:
backoff sleep when `k > 0`; the download call (on failure the iteration
ends with `files_to_download` unchanged); stability waits on the existing
files; the half-second pause; re-validation (resetting `files_to_download`,
which `skip_validation` leaves empty). -/
def loopIter (c : Cfg) (env : Env) (k : Nat) (fs : FS) (todo : List String) :
    List Event × FS × List String :=
  let evs0 := if k = 0 then ([] : List Event) else [Event.sleep (backoffWait c.retryDelay k)]
  if env.fetchOk k then
    let D := doDownload c env k fs
    let evsStab := (c.fileInfo.map Prod.fst).filterMap
      (fun p => if isAbsent (D.1 p) then none else some (Event.stabilityWait p))
    if c.skipValidation then
      (evs0 ++ [Event.download c.links D.2 k] ++ evsStab
        ++ [Event.stabilizePause ((1 : ℚ) / 2)], D.1, [])
    else
      let V := checkFiles D.1 c.fileInfo
      (evs0 ++ [Event.download c.links D.2 k] ++ evsStab
        ++ [Event.stabilizePause ((1 : ℚ) / 2)] ++ V.1, V.2.1, V.2.2)
  else
    (evs0 ++ [Event.download c.links [] k], fs, todo)

/-- The `while files_to_download and retry_count < max_retries` loop, with
the remaining attempt budget as fuel (initially `max_retries`) and `k` the
current `retry_count`. -/
def retryLoop (c : Cfg) (env : Env) : Nat → Nat → FS → List String →
    List Event × FS × List String
  | 0, _, fs, todo => ([], fs, todo)
  | _ + 1, _, fs, [] => ([], fs, [])
  | fuel + 1, k, fs, p :: todo =>
    let I := loopIter c env k fs (p :: todo)
    let R := retryLoop c env fuel (k + 1) I.2.1 I.2.2
    (I.1 ++ R.1, R.2.1, R.2.2)

/-- Result of one retrieval call: the returned granule or the raised error,
the final filesystem, and the event trace. -/
structure RetrieveOut where
  result : Except RetrieveError EMITL2ARFLGranule
  fs : FS
  trace : List Event

/-- Lines 111-213: initial check, retry loop, the final
`if files_to_download and not skip_validation: raise FileNotFoundError`
gate, and construction of the `EMITL2ARFLGranule`. -/
def retrieveCore (c : Cfg) (max_retries : Nat) (env : Env) (fs0 : FS)
    (r m u : String) : RetrieveOut :=
  let A := initialCheck c fs0
  let B := retryLoop c env max_retries 0 A.2.1 A.2.2
  if B.2.2.isEmpty || c.skipValidation then
    { result := .ok ⟨r, m, u⟩, fs := B.2.1, trace := A.1 ++ B.1 }
  else
    { result := .error (.retryExhausted B.2.2), fs := B.2.1, trace := A.1 ++ B.1 }

/-- The `file_info` dictionary of lines 105-109 in insertion order. -/
def buildCfg (links : List String) (download_directory l0 : String) (d : ℚ)
    (skip : Bool) (r m u : String) : Cfg :=
  { links := links
    localFiles := expected_local_files download_directory l0 links
    retryDelay := d
    skipValidation := skip
    fileInfo := [(r, "Reflectance"), (m, "Mask"), (u, "Uncertainty")] }

/-- `retrieve_EMIT_L2A_RFL_granule` (lines 19-213), for a resolved remote
granule given by its data links: parse the granule identifier from the
first link, reject a non-EMIT-L2A-RFL-001 identifier, project and classify
the local files, reject unidentifiable roles, then run the core retry
machine. -/
def retrieve_EMIT_L2A_RFL_granule (links : List String)
    (download_directory : String) (max_retries : Nat) (retry_delay : ℚ)
    (skip_validation : Bool) (env : Env) (fs0 : FS) : RetrieveOut :=
  match links with
  | [] => { result := .error .noDataLinks, fs := fs0, trace := [] }
  | l0 :: _ =>
    if strStartsWith (granule_ID_of l0) "EMIT_L2A_RFL_001_" then
      match _identify_files (expected_local_files download_directory l0 links) with
      | (some r, some m, some u) =>
        retrieveCore (buildCfg links download_directory l0 retry_delay skip_validation r m u)
          max_retries env fs0 r m u
      | _ => { result := .error .rolesUnidentified, fs := fs0, trace := [] }
    else { result := .error .notEMITL2ARFL, fs := fs0, trace := [] }

/-! ## Trace observers -/

/-- The backoff-sleep events of a trace. -/
def sleepsOf (evs : List Event) : List Event :=
  evs.filter (fun e => match e with | .sleep _ => true | _ => false)

/-- The file-removal events of a trace. -/
def removesOf (evs : List Event) : List Event :=
  evs.filter (fun e => match e with | .removeFile _ => true | _ => false)

/-- The download-transport invocations of a trace. -/
def downloadsOf (evs : List Event) : List Event :=
  evs.filter (fun e => match e with | .download _ _ _ => true | _ => false)

/-- The retry-set / filesystem invariant maintained by the state machine
when validation is on: a path is in `files_to_download` exactly when it is
one of the tracked paths and its current state fails validation. -/
def RetryInv (L : List (String × String)) (fs : FS) (todo : List String) : Prop :=
  ∀ q, q ∈ todo ↔ (q ∈ L.map Prod.fst ∧ validate_NetCDF_file (fs q) false ≠ .ok ())

/-! ## Lemmas about the validator and the shared validation pass -/

/-- A file that validates successfully exists. -/
theorem validate_ok_not_absent (f : FSFile) (ci : Bool)
    (h : validate_NetCDF_file f ci = .ok ()) : isAbsent f = false := by
  cases f with
  | absent => simp [validate_NetCDF_file] at h
  | file st => rfl

/-- Unfolding a validation pass at a path that validates. -/
theorem checkFiles_cons_ok (fs : FS) (p s : String) (rest : List (String × String))
    (hv : validate_NetCDF_file (fs p) false = .ok ()) :
    checkFiles fs ((p, s) :: rest) = checkFiles fs rest := by
  simp only [checkFiles, hv]

/-- Unfolding a validation pass at a path that fails validation. -/
theorem checkFiles_cons_error (fs : FS) (p s : String) (rest : List (String × String))
    (e : VErr) (hv : validate_NetCDF_file (fs p) false = .error e) :
    checkFiles fs ((p, s) :: rest)
      = ((if isAbsent (fs p) then ([] : List Event) else [Event.removeFile p])
           ++ (checkFiles (checkRemove fs p) rest).1,
         (checkFiles (checkRemove fs p) rest).2.1,
         p :: (checkFiles (checkRemove fs p) rest).2.2) := by
  simp only [checkFiles, hv]

/-- The removal step empties the path it is applied to. -/
theorem checkRemove_self (fs : FS) (p : String) : checkRemove fs p p = .absent := by
  unfold checkRemove
  by_cases hab : isAbsent (fs p) = true
  · rw [if_pos hab]
    cases hfp : fs p with
    | absent => rfl
    | file st => rw [hfp] at hab; simp [isAbsent] at hab
  · rw [if_neg hab]; simp

/-- The removal step touches no other path. -/
theorem checkRemove_other (fs : FS) (p q : String) (h : q ≠ p) :
    checkRemove fs p q = fs q := by
  unfold checkRemove
  by_cases hab : isAbsent (fs p) = true <;> simp [hab, h]

/-- `checkFiles` leaves paths it does not track untouched. -/
theorem checkFiles_fs_not_mem (L : List (String × String)) :
    ∀ (fs : FS) (q : String), q ∉ L.map Prod.fst → (checkFiles fs L).2.1 q = fs q := by
  induction L with
  | nil => intro fs q _; rfl
  | cons pr rest ih =>
    intro fs q hq
    obtain ⟨p, s⟩ := pr
    simp only [List.map_cons, List.mem_cons, not_or] at hq
    rcases hv : validate_NetCDF_file (fs p) false with e | v
    · rw [checkFiles_cons_error fs p s rest e hv]
      have := ih (checkRemove fs p) q hq.2
      simp only [this]
      exact checkRemove_other fs p q hq.1
    · cases v
      rw [checkFiles_cons_ok fs p s rest hv]
      exact ih fs q hq.2

/-- `checkFiles` never creates a file: an absent path stays absent. -/
theorem checkFiles_fs_absent (L : List (String × String)) :
    ∀ (fs : FS) (q : String), fs q = .absent → (checkFiles fs L).2.1 q = .absent := by
  induction L with
  | nil => intro fs q h; exact h
  | cons pr rest ih =>
    intro fs q h
    obtain ⟨p, s⟩ := pr
    rcases hv : validate_NetCDF_file (fs p) false with e | v
    · rw [checkFiles_cons_error fs p s rest e hv]
      apply ih
      by_cases hqp : q = p
      · subst hqp; exact checkRemove_self fs q
      · rw [checkRemove_other fs p q hqp]; exact h
    · cases v
      rw [checkFiles_cons_ok fs p s rest hv]
      exact ih fs q h

/-- Membership in the `files_to_download` list produced by a validation
pass, characterised against the filesystem the pass leaves behind: exactly
the tracked paths that still fail validation. -/
theorem checkFiles_mem_todo (L : List (String × String)) :
    ∀ (fs : FS) (q : String),
      q ∈ (checkFiles fs L).2.2
        ↔ (q ∈ L.map Prod.fst
            ∧ validate_NetCDF_file ((checkFiles fs L).2.1 q) false ≠ .ok ()) := by
  induction L with
  | nil => intro fs q; simp [checkFiles]
  | cons pr rest ih =>
    intro fs q
    obtain ⟨p, s⟩ := pr
    rcases hv : validate_NetCDF_file (fs p) false with e | v
    · -- validation failure: the file is removed and the path recorded
      rw [checkFiles_cons_error fs p s rest e hv]
      simp only [List.map_cons, List.mem_cons]
      by_cases hqp : q = p
      · subst hqp
        have hres : (checkFiles (checkRemove fs q) rest).2.1 q = FSFile.absent :=
          checkFiles_fs_absent rest (checkRemove fs q) q (checkRemove_self fs q)
        simp [hres, validate_NetCDF_file]
      · constructor
        · intro hq
          rcases hq with hq | hq
          · exact absurd hq hqp
          · have := (ih (checkRemove fs p) q).mp hq
            exact ⟨Or.inr this.1, this.2⟩
        · rintro ⟨hc, hX⟩
          rcases hc with hc | hc
          · exact absurd hc hqp
          · exact Or.inr ((ih (checkRemove fs p) q).mpr ⟨hc, hX⟩)
    · cases v
      rw [checkFiles_cons_ok fs p s rest hv]
      simp only [List.map_cons, List.mem_cons]
      by_cases hqp : q = p
      · subst hqp
        by_cases hmem : q ∈ rest.map Prod.fst
        · rw [ih fs q]
          simp [hmem]
        · rw [ih fs q]
          rw [checkFiles_fs_not_mem rest fs q hmem]
          simp [hmem, hv]
      · rw [ih fs q]
        simp [hqp]

/-- Every event emitted by a validation pass is a file removal. -/
theorem checkFiles_events_removes (L : List (String × String)) :
    ∀ (fs : FS), ∀ e ∈ (checkFiles fs L).1, ∃ p, e = Event.removeFile p := by
  induction L with
  | nil => intro fs e he; simp [checkFiles] at he
  | cons pr rest ih =>
    intro fs e he
    obtain ⟨p, s⟩ := pr
    rcases hv : validate_NetCDF_file (fs p) false with e' | v
    · rw [checkFiles_cons_error fs p s rest e' hv] at he
      rcases List.mem_append.mp he with h | h
      · by_cases hab : isAbsent (fs p) = true
        · simp [hab] at h
        · simp [hab] at h
          exact ⟨p, h⟩
      · exact ih _ e h
    · cases v
      rw [checkFiles_cons_ok fs p s rest hv] at he
      exact ih fs e he

/-- A validation pass establishes the retry-set invariant. -/
theorem checkFiles_inv (fs : FS) (L : List (String × String)) :
    RetryInv L ((checkFiles fs L).2.1) ((checkFiles fs L).2.2) :=
  fun q => checkFiles_mem_todo L fs q

/-! ## Lemmas about the retry loop -/

/-- One loop iteration with validation on re-establishes the invariant. -/
theorem loopIter_inv (c : Cfg) (env : Env) (k : Nat) (fs : FS) (todo : List String)
    (hskip : c.skipValidation = false) (hinv : RetryInv c.fileInfo fs todo) :
    RetryInv c.fileInfo (loopIter c env k fs todo).2.1 (loopIter c env k fs todo).2.2 := by
  cases hok : env.fetchOk k with
  | false => simpa [loopIter, hok] using hinv
  | true =>
    simp only [loopIter, hok, hskip]
    simpa using checkFiles_inv (doDownload c env k fs).1 c.fileInfo

/-- The retry loop with validation on preserves the invariant. -/
theorem retryLoop_inv (c : Cfg) (env : Env) (hskip : c.skipValidation = false) :
    ∀ (fuel k : Nat) (fs : FS) (todo : List String), RetryInv c.fileInfo fs todo →
      RetryInv c.fileInfo (retryLoop c env fuel k fs todo).2.1
        (retryLoop c env fuel k fs todo).2.2 := by
  intro fuel
  induction fuel with
  | zero => intro k fs todo h; exact h
  | succ f ih =>
    intro k fs todo h
    cases todo with
    | nil =>
      simpa [retryLoop] using h
    | cons p t =>
      simp only [retryLoop]
      exact ih (k + 1) _ _ (loopIter_inv c env k fs (p :: t) hskip h)

/-! ## Lemmas about `retrieveCore` -/

/-- The final filesystem of a retrieval is the one the retry loop leaves. -/
theorem retrieveCore_fs (c : Cfg) (mr : Nat) (env : Env) (fs0 : FS) (r m u : String) :
    (retrieveCore c mr env fs0 r m u).fs
      = (retryLoop c env mr 0 (initialCheck c fs0).2.1 (initialCheck c fs0).2.2).2.1 := by
  simp only [retrieveCore]
  split <;> rfl

/-- The trace of a retrieval is the initial-check events followed by the
loop events. -/
theorem retrieveCore_trace (c : Cfg) (mr : Nat) (env : Env) (fs0 : FS) (r m u : String) :
    (retrieveCore c mr env fs0 r m u).trace
      = (initialCheck c fs0).1
        ++ (retryLoop c env mr 0 (initialCheck c fs0).2.1 (initialCheck c fs0).2.2).1 := by
  simp only [retrieveCore]
  split <;> rfl

/-- With validation on, a retrieval either returns the granule of the three
identified paths with an empty retry set, or raises `retryExhausted` with
the non-empty retry set; in both cases the invariant holds at the exit. -/
theorem retrieveCore_cases (c : Cfg) (mr : Nat) (env : Env) (fs0 : FS) (r m u : String)
    (hskip : c.skipValidation = false) :
    ((retrieveCore c mr env fs0 r m u).result = .ok ⟨r, m, u⟩
      ∧ RetryInv c.fileInfo (retrieveCore c mr env fs0 r m u).fs [])
    ∨ (∃ l, l ≠ []
        ∧ (retrieveCore c mr env fs0 r m u).result = .error (.retryExhausted l)
        ∧ RetryInv c.fileInfo (retrieveCore c mr env fs0 r m u).fs l) := by
  have hinit : RetryInv c.fileInfo (initialCheck c fs0).2.1 (initialCheck c fs0).2.2 := by
    simp only [initialCheck, hskip, if_false]
    exact checkFiles_inv fs0 c.fileInfo
  have hB := retryLoop_inv c env hskip mr 0 _ _ hinit
  rw [retrieveCore_fs]
  rcases hT : (retryLoop c env mr 0 (initialCheck c fs0).2.1 (initialCheck c fs0).2.2).2.2
    with _ | ⟨p, t⟩
  · left
    rw [hT] at hB
    refine ⟨?_, hB⟩
    simp [retrieveCore, hT]
  · right
    rw [hT] at hB
    refine ⟨p :: t, by simp, ?_, hB⟩
    simp [retrieveCore, hT, hskip]

/-- Reduction of the front checks: with a well-formed identifier and all
three roles identified, retrieval is the core retry machine. -/
theorem retrieve_eq_core (dd : String) (mr : Nat) (d : ℚ) (skip : Bool) (env : Env)
    (fs0 : FS) (l0 : String) (rest : List String) (r m u : String)
    (hID : strStartsWith (granule_ID_of l0) "EMIT_L2A_RFL_001_" = true)
    (hid : _identify_files (expected_local_files dd l0 (l0 :: rest))
      = (some r, some m, some u)) :
    retrieve_EMIT_L2A_RFL_granule (l0 :: rest) dd mr d skip env fs0
      = retrieveCore (buildCfg (l0 :: rest) dd l0 d skip r m u) mr env fs0 r m u := by
  simp only [retrieve_EMIT_L2A_RFL_granule, hID, hid, if_true]

/-- From the invariant with an empty retry set, every tracked path
validates in the final filesystem. -/
theorem retryInv_nil_valid (L : List (String × String)) (fs : FS)
    (hinv : RetryInv L fs []) (q : String) (hq : q ∈ L.map Prod.fst) :
    validate_NetCDF_file (fs q) false = .ok () := by
  have h1 : ¬(q ∈ L.map Prod.fst ∧ validate_NetCDF_file (fs q) false ≠ .ok ()) := by
    intro hc
    exact absurd ((hinv q).mpr hc) (List.not_mem_nil q)
  rcases hval : validate_NetCDF_file (fs q) false with e | v
  · exact absurd ⟨hq, by simp [hval]⟩ h1
  · cases v; rfl

/-- C1: with `skip_validation = False`, whenever
`retrieve_EMIT_L2A_RFL_granule` returns an `EMITL2ARFLGranule` rather than
raising, each of the granule's three paths (reflectance, mask,
uncertainty) passes `validate_NetCDF_file` without raising in the
filesystem state at the moment the granule object is constructed. -/
theorem granule_requires_valid_files (links : List String) (dd : String) (mr : Nat)
    (d : ℚ) (env : Env) (fs0 : FS) (g : EMITL2ARFLGranule)
    (hok : (retrieve_EMIT_L2A_RFL_granule links dd mr d false env fs0).result
      = .ok g) :
    validate_NetCDF_file
        ((retrieve_EMIT_L2A_RFL_granule links dd mr d false env fs0).fs
          g.reflectance_filename) false = .ok ()
      ∧ validate_NetCDF_file
        ((retrieve_EMIT_L2A_RFL_granule links dd mr d false env fs0).fs
          g.mask_filename) false = .ok ()
      ∧ validate_NetCDF_file
        ((retrieve_EMIT_L2A_RFL_granule links dd mr d false env fs0).fs
          g.uncertainty_filename) false = .ok () := by
  cases links with
  | nil => simp [retrieve_EMIT_L2A_RFL_granule] at hok
  | cons l0 rest =>
    cases hID : strStartsWith (granule_ID_of l0) "EMIT_L2A_RFL_001_" with
    | false => simp [retrieve_EMIT_L2A_RFL_granule, hID] at hok
    | true =>
      rcases hid : _identify_files (expected_local_files dd l0 (l0 :: rest))
        with ⟨o1, o2, o3⟩
      cases o1 with
      | none => simp [retrieve_EMIT_L2A_RFL_granule, hID, hid] at hok
      | some r =>
        cases o2 with
        | none => simp [retrieve_EMIT_L2A_RFL_granule, hID, hid] at hok
        | some m =>
          cases o3 with
          | none => simp [retrieve_EMIT_L2A_RFL_granule, hID, hid] at hok
          | some u =>
            rw [retrieve_eq_core dd mr d false env fs0 l0 rest r m u hID hid] at hok ⊢
            rcases retrieveCore_cases (buildCfg (l0 :: rest) dd l0 d false r m u)
                mr env fs0 r m u rfl
              with ⟨hres, hinv⟩ | ⟨l, hlne, hres, hinv⟩
            · rw [hres] at hok
              injection hok with hg
              rw [← hg]
              refine ⟨?_, ?_, ?_⟩
              · exact retryInv_nil_valid _ _ hinv r (by simp [buildCfg])
              · exact retryInv_nil_valid _ _ hinv m (by simp [buildCfg])
              · exact retryInv_nil_valid _ _ hinv u (by simp [buildCfg])
            · rw [hres] at hok
              simp at hok

/-- Witness for C1: a cache in which all three files are valid yields a
granule, and the theorem reports all three validations passing. -/
theorem granule_requires_valid_files_witness :
    ((retrieve_EMIT_L2A_RFL_granule
        ["https://h/EMIT_L2A_RFL_001_G.nc", "https://h/EMIT_L2A_MASK_001_G.nc",
         "https://h/EMIT_L2A_RFLUNCERT_001_G.nc"] "dl" 3 2 false
        ⟨fun _ => false, fun _ _ => FSFile.absent⟩
        (fun _ => FSFile.file ⟨100, .opened 3 5 true⟩)).result
      = .ok ⟨"dl/EMIT_L2A_RFL_001_G/EMIT_L2A_RFL_001_G.nc",
             "dl/EMIT_L2A_RFL_001_G/EMIT_L2A_MASK_001_G.nc",
             "dl/EMIT_L2A_RFL_001_G/EMIT_L2A_RFLUNCERT_001_G.nc"⟩)
    ∧ (validate_NetCDF_file
        ((retrieve_EMIT_L2A_RFL_granule
          ["https://h/EMIT_L2A_RFL_001_G.nc", "https://h/EMIT_L2A_MASK_001_G.nc",
           "https://h/EMIT_L2A_RFLUNCERT_001_G.nc"] "dl" 3 2 false
          ⟨fun _ => false, fun _ _ => FSFile.absent⟩
          (fun _ => FSFile.file ⟨100, .opened 3 5 true⟩)).fs
          "dl/EMIT_L2A_RFL_001_G/EMIT_L2A_RFL_001_G.nc") false = .ok ()
      ∧ validate_NetCDF_file
        ((retrieve_EMIT_L2A_RFL_granule
          ["https://h/EMIT_L2A_RFL_001_G.nc", "https://h/EMIT_L2A_MASK_001_G.nc",
           "https://h/EMIT_L2A_RFLUNCERT_001_G.nc"] "dl" 3 2 false
          ⟨fun _ => false, fun _ _ => FSFile.absent⟩
          (fun _ => FSFile.file ⟨100, .opened 3 5 true⟩)).fs
          "dl/EMIT_L2A_RFL_001_G/EMIT_L2A_MASK_001_G.nc") false = .ok ()
      ∧ validate_NetCDF_file
        ((retrieve_EMIT_L2A_RFL_granule
          ["https://h/EMIT_L2A_RFL_001_G.nc", "https://h/EMIT_L2A_MASK_001_G.nc",
           "https://h/EMIT_L2A_RFLUNCERT_001_G.nc"] "dl" 3 2 false
          ⟨fun _ => false, fun _ _ => FSFile.absent⟩
          (fun _ => FSFile.file ⟨100, .opened 3 5 true⟩)).fs
          "dl/EMIT_L2A_RFL_001_G/EMIT_L2A_RFLUNCERT_001_G.nc") false = .ok ()) :=
  ⟨by decide,
   granule_requires_valid_files
     ["https://h/EMIT_L2A_RFL_001_G.nc", "https://h/EMIT_L2A_MASK_001_G.nc",
      "https://h/EMIT_L2A_RFLUNCERT_001_G.nc"] "dl" 3 2
     ⟨fun _ => false, fun _ _ => FSFile.absent⟩
     (fun _ => FSFile.file ⟨100, .opened 3 5 true⟩)
     ⟨"dl/EMIT_L2A_RFL_001_G/EMIT_L2A_RFL_001_G.nc",
      "dl/EMIT_L2A_RFL_001_G/EMIT_L2A_MASK_001_G.nc",
      "dl/EMIT_L2A_RFL_001_G/EMIT_L2A_RFLUNCERT_001_G.nc"⟩ (by decide)⟩

/-- C2: `validate_NetCDF_file` checks in strict order with short-circuit:
a nonexistent path yields `NetCDFFileNotFoundError` (for any
`check_integrity`, hence never an unhandled outcome); an existing
zero-byte file yields `NetCDFEmptyFileError` whatever opening it would
produce; a file that opens with at least one dimension or variable
validates; an openable container with zero dimensions and zero variables
yields `NetCDFCorruptedError`. -/
theorem validate_NetCDF_file_check_order :
    (∀ ci, validate_NetCDF_file .absent ci = .error .NetCDFFileNotFoundError)
    ∧ (∀ r ci, validate_NetCDF_file (.file ⟨0, r⟩) ci
        = .error .NetCDFEmptyFileError)
    ∧ (∀ sz nd nv sh, 0 < sz → 0 < nd + nv →
        validate_NetCDF_file (.file ⟨sz, .opened nd nv sh⟩) false = .ok ())
    ∧ (∀ sz sh, 0 < sz →
        validate_NetCDF_file (.file ⟨sz, .opened 0 0 sh⟩) false
          = .error .NetCDFCorruptedError) := by
  refine ⟨fun ci => rfl, fun r ci => rfl, ?_, ?_⟩
  · intro sz nd nv sh hsz hnv
    have h1 : ¬ sz = 0 := by omega
    have h2 : (decide (nd = 0) && decide (nv = 0)) = false := by
      rcases Nat.eq_zero_or_pos nd with h | h
      · have hnv0 : ¬ nv = 0 := by omega
        simp [h, hnv0]
      · have hnd0 : ¬ nd = 0 := by omega
        simp [hnd0]
    simp [validate_NetCDF_file, h1, h2]
  · intro sz sh hsz
    have h1 : ¬ sz = 0 := by omega
    simp [validate_NetCDF_file, h1]

/-- Witness for C2 at concrete sizes and dimension counts. -/
theorem validate_NetCDF_file_check_order_witness :
    (0 : Nat) < 1
    ∧ validate_NetCDF_file (.file ⟨1, .opened 1 0 true⟩) false = .ok ()
    ∧ validate_NetCDF_file (.file ⟨1, .opened 0 0 true⟩) false
        = .error .NetCDFCorruptedError :=
  ⟨by decide,
   validate_NetCDF_file_check_order.2.2.1 1 1 0 true (by decide) (by decide),
   validate_NetCDF_file_check_order.2.2.2 1 true (by decide)⟩

/-- C4: a granule identifier (basename of the first data link, extension
stripped) that does not start with `EMIT_L2A_RFL_001_` makes
`retrieve_EMIT_L2A_RFL_granule` raise the `ValueError` immediately, with
an empty event trace: no download-transport invocation and no retry-loop
activity, whatever `skip_validation` and the rest of the inputs are. -/
theorem wrong_granule_id_aborts_before_download (links : List String) (dd : String)
    (mr : Nat) (d : ℚ) (skip : Bool) (env : Env) (fs0 : FS) (l0 : String)
    (rest : List String) (hl : links = l0 :: rest)
    (hID : strStartsWith (granule_ID_of l0) "EMIT_L2A_RFL_001_" = false) :
    (retrieve_EMIT_L2A_RFL_granule links dd mr d skip env fs0).result
        = .error .notEMITL2ARFL
      ∧ (retrieve_EMIT_L2A_RFL_granule links dd mr d skip env fs0).trace = [] := by
  subst hl
  simp [retrieve_EMIT_L2A_RFL_granule, hID]

/-- Witness for C4: an uncertainty-product link as the primary locator. -/
theorem wrong_granule_id_aborts_before_download_witness :
    strStartsWith (granule_ID_of "https://h/EMIT_L2A_RFLUNCERT_001_G.nc")
        "EMIT_L2A_RFL_001_" = false
    ∧ ((retrieve_EMIT_L2A_RFL_granule ["https://h/EMIT_L2A_RFLUNCERT_001_G.nc"]
          "dl" 3 2 false ⟨fun _ => false, fun _ _ => FSFile.absent⟩
          (fun _ => FSFile.absent)).result = .error .notEMITL2ARFL
      ∧ (retrieve_EMIT_L2A_RFL_granule ["https://h/EMIT_L2A_RFLUNCERT_001_G.nc"]
          "dl" 3 2 false ⟨fun _ => false, fun _ _ => FSFile.absent⟩
          (fun _ => FSFile.absent)).trace = []) :=
  ⟨by decide,
   wrong_granule_id_aborts_before_download _ _ _ _ _ _ _ _ _ rfl (by decide)⟩

/-- C3: with validation on and the permanent checks passed, the only error
`retrieve_EMIT_L2A_RFL_granule` can raise is the retry-exhaustion
`FileNotFoundError`; its payload is non-empty and contains exactly the
tracked paths whose final state still fails validation — transient
integrity failures inside the loop are never surfaced directly. -/
theorem retry_exhaustion_enumerates_failures (links : List String) (dd : String)
    (mr : Nat) (d : ℚ) (env : Env) (fs0 : FS) (l0 : String) (rest : List String)
    (r m u : String) (hl : links = l0 :: rest)
    (hID : strStartsWith (granule_ID_of l0) "EMIT_L2A_RFL_001_" = true)
    (hid : _identify_files (expected_local_files dd l0 (l0 :: rest))
      = (some r, some m, some u)) :
    (∀ e, (retrieve_EMIT_L2A_RFL_granule links dd mr d false env fs0).result
        = .error e → ∃ l, e = .retryExhausted l)
    ∧ (∀ l, (retrieve_EMIT_L2A_RFL_granule links dd mr d false env fs0).result
          = .error (.retryExhausted l) →
        l ≠ []
          ∧ ∀ p, (p ∈ l ↔ (p ∈ [r, m, u]
              ∧ validate_NetCDF_file
                  ((retrieve_EMIT_L2A_RFL_granule links dd mr d false env fs0).fs p)
                  false ≠ .ok ()))) := by
  subst hl
  rw [retrieve_eq_core dd mr d false env fs0 l0 rest r m u hID hid]
  rcases retrieveCore_cases (buildCfg (l0 :: rest) dd l0 d false r m u) mr env fs0 r m u rfl
    with ⟨hres, hinv⟩ | ⟨lx, hlne, hres, hinv⟩
  · constructor
    · intro e he
      rw [hres] at he
      simp at he
    · intro l hl'
      rw [hres] at hl'
      simp at hl'
  · constructor
    · intro e he
      rw [hres] at he
      injection he with he'
      exact ⟨lx, he'.symm⟩
    · intro l hl'
      rw [hres] at hl'
      injection hl' with he'
      injection he' with hll
      subst hll
      refine ⟨hlne, fun p => ?_⟩
      simpa [buildCfg, RetryInv] using hinv p

/-- Witness for C3, spec scenario D: nothing cached and every download
attempt fails; the exhaustion error lists all three paths, each of which
indeed fails validation at exit. -/
theorem retry_exhaustion_enumerates_failures_witness :
    ((retrieve_EMIT_L2A_RFL_granule
        ["https://h/EMIT_L2A_RFL_001_G.nc", "https://h/EMIT_L2A_MASK_001_G.nc",
         "https://h/EMIT_L2A_RFLUNCERT_001_G.nc"] "dl" 3 2 false
        ⟨fun _ => false, fun _ _ => FSFile.absent⟩ (fun _ => FSFile.absent)).result
      = .error (.retryExhausted
          ["dl/EMIT_L2A_RFL_001_G/EMIT_L2A_RFL_001_G.nc",
           "dl/EMIT_L2A_RFL_001_G/EMIT_L2A_MASK_001_G.nc",
           "dl/EMIT_L2A_RFL_001_G/EMIT_L2A_RFLUNCERT_001_G.nc"]))
    ∧ (["dl/EMIT_L2A_RFL_001_G/EMIT_L2A_RFL_001_G.nc",
        "dl/EMIT_L2A_RFL_001_G/EMIT_L2A_MASK_001_G.nc",
        "dl/EMIT_L2A_RFL_001_G/EMIT_L2A_RFLUNCERT_001_G.nc"] : List String) ≠ [] :=
  ⟨by decide,
   ((retry_exhaustion_enumerates_failures
      ["https://h/EMIT_L2A_RFL_001_G.nc", "https://h/EMIT_L2A_MASK_001_G.nc",
       "https://h/EMIT_L2A_RFLUNCERT_001_G.nc"] "dl" 3 2
      ⟨fun _ => false, fun _ _ => FSFile.absent⟩ (fun _ => FSFile.absent)
      "https://h/EMIT_L2A_RFL_001_G.nc"
      ["https://h/EMIT_L2A_MASK_001_G.nc", "https://h/EMIT_L2A_RFLUNCERT_001_G.nc"]
      "dl/EMIT_L2A_RFL_001_G/EMIT_L2A_RFL_001_G.nc"
      "dl/EMIT_L2A_RFL_001_G/EMIT_L2A_MASK_001_G.nc"
      "dl/EMIT_L2A_RFL_001_G/EMIT_L2A_RFLUNCERT_001_G.nc"
      rfl (by decide) (by decide)).2
    ["dl/EMIT_L2A_RFL_001_G/EMIT_L2A_RFL_001_G.nc",
     "dl/EMIT_L2A_RFL_001_G/EMIT_L2A_MASK_001_G.nc",
     "dl/EMIT_L2A_RFL_001_G/EMIT_L2A_RFLUNCERT_001_G.nc"] (by decide)).1⟩

/-- A trace containing no sleep event has no backoff sleeps. -/
theorem sleepsOf_no_sleep (evs : List Event)
    (h : ∀ e ∈ evs, ∀ q, e ≠ Event.sleep q) : sleepsOf evs = [] := by
  apply List.filter_eq_nil_iff.mpr
  intro e he
  cases e with
  | sleep q => exact absurd rfl (h _ he q)
  | stabilizePause q => simp
  | removeFile p => simp
  | download a b n => simp
  | stabilityWait p => simp

/-- Appending traces appends their backoff sleeps. -/
theorem sleepsOf_append (a b : List Event) :
    sleepsOf (a ++ b) = sleepsOf a ++ sleepsOf b :=
  List.filter_append a b

/-- C5: the loop iteration at `retry_count = 0` (the very first download
attempt) emits no backoff sleep, the iteration at `retry_count = k ≥ 1`
(the 1-indexed attempt `k + 1`) emits exactly one sleep of
`retry_delay * 2 ^ (k - 1)` seconds, the durations for `retry_delay = 2`
before attempts 2, 3 and 4 are exactly 2, 4 and 8 seconds, and the first
event of the whole retry loop is the attempt-0 download invocation, so no
sleep precedes the very first attempt. -/
theorem backoff_schedule :
    (∀ (c : Cfg) (env : Env) (k : Nat) (fs : FS) (todo : List String),
        sleepsOf (loopIter c env k fs todo).1
          = if k = 0 then [] else [Event.sleep (backoffWait c.retryDelay k)])
    ∧ backoffWait 2 1 = 2 ∧ backoffWait 2 2 = 4 ∧ backoffWait 2 3 = 8
    ∧ (∀ (c : Cfg) (env : Env) (fuel : Nat) (fs : FS) (p : String)
        (todo : List String),
        ∃ w rest, (retryLoop c env (fuel + 1) 0 fs (p :: todo)).1
          = Event.download c.links w 0 :: rest) := by
  refine ⟨?_, by norm_num [backoffWait], by norm_num [backoffWait],
    by norm_num [backoffWait], ?_⟩
  · intro c env k fs todo
    have key : ∀ (tail : List Event), (∀ e ∈ tail, ∀ q, e ≠ Event.sleep q) →
        sleepsOf ((if k = 0 then ([] : List Event)
              else [Event.sleep (backoffWait c.retryDelay k)]) ++ tail)
          = if k = 0 then [] else [Event.sleep (backoffWait c.retryDelay k)] := by
      intro tail htail
      rw [sleepsOf_append, sleepsOf_no_sleep tail htail]
      by_cases hk : k = 0 <;> simp [hk, sleepsOf]
    have hstabmem : ∀ e ∈ (c.fileInfo.map Prod.fst).filterMap
        (fun p => if isAbsent ((doDownload c env k fs).1 p) then none
          else some (Event.stabilityWait p)), ∀ q, e ≠ Event.sleep q := by
      intro e he q
      obtain ⟨p, hp, hpe⟩ := List.mem_filterMap.mp he
      by_cases hab : isAbsent ((doDownload c env k fs).1 p) = true
      · rw [if_pos hab] at hpe
        exact absurd hpe (by simp)
      · rw [if_neg hab] at hpe
        injection hpe with hpe'
        rw [← hpe']
        simp
    have hVmem : ∀ e ∈ (checkFiles (doDownload c env k fs).1 c.fileInfo).1,
        ∀ q, e ≠ Event.sleep q := by
      intro e he q
      obtain ⟨p, hp⟩ := checkFiles_events_removes _ _ e he
      rw [hp]
      simp
    cases hok : env.fetchOk k with
    | false =>
      simp only [loopIter, hok, Bool.false_eq_true, if_false]
      exact key [Event.download c.links [] k]
        (by intro e he q; simp only [List.mem_singleton] at he; rw [he]; simp)
    | true =>
      cases hcs : c.skipValidation with
      | true =>
        simp only [loopIter, hok, hcs, if_true, List.append_assoc]
        refine key _ ?_
        intro e he q
        rcases List.mem_append.mp he with h | h
        · simp only [List.mem_singleton] at h; rw [h]; simp
        · rcases List.mem_append.mp h with h | h
          · exact hstabmem e h q
          · simp only [List.mem_singleton] at h; rw [h]; simp
      | false =>
        simp only [loopIter, hok, hcs, Bool.false_eq_true, if_true, if_false,
          List.append_assoc]
        refine key _ ?_
        intro e he q
        rcases List.mem_append.mp he with h | h
        · simp only [List.mem_singleton] at h; rw [h]; simp
        · rcases List.mem_append.mp h with h | h
          · exact hstabmem e h q
          · rcases List.mem_append.mp h with h | h
            · simp only [List.mem_singleton] at h; rw [h]; simp
            · exact hVmem e h q
  · intro c env fuel fs p todo
    have hI : ∃ w t, (loopIter c env 0 fs (p :: todo)).1
        = Event.download c.links w 0 :: t := by
      cases hok : env.fetchOk 0 with
      | false =>
        exact ⟨[], [], by simp [loopIter, hok]⟩
      | true =>
        cases hcs : c.skipValidation with
        | true =>
          exact ⟨(doDownload c env 0 fs).2,
            (c.fileInfo.map Prod.fst).filterMap
                (fun q => if isAbsent ((doDownload c env 0 fs).1 q) then none
                  else some (Event.stabilityWait q))
              ++ [Event.stabilizePause ((1 : ℚ) / 2)],
            by simp [loopIter, hok, hcs]⟩
        | false =>
          exact ⟨(doDownload c env 0 fs).2,
            (c.fileInfo.map Prod.fst).filterMap
                (fun q => if isAbsent ((doDownload c env 0 fs).1 q) then none
                  else some (Event.stabilityWait q))
              ++ [Event.stabilizePause ((1 : ℚ) / 2)]
              ++ (checkFiles (doDownload c env 0 fs).1 c.fileInfo).1,
            by simp [loopIter, hok, hcs]⟩
    obtain ⟨w, t, hI⟩ := hI
    refine ⟨w, t ++ (retryLoop c env fuel 1 (loopIter c env 0 fs (p :: todo)).2.1
      (loopIter c env 0 fs (p :: todo)).2.2).1, ?_⟩
    simp only [retryLoop]
    rw [hI, List.cons_append]

/-- C6 counterexample: three filenames containing `_RFL_`, `_MASK_` and
`_RFLUNCERT_` respectively, where the first also contains `_MASK_`.
`_identify_files` assigns the mask role to the first filename, not to the
second, so the classifier does not assign each filename to its correct
role for every such list. -/
theorem identify_files_counterexample :
    (_identify_files ["EMIT_L2A_RFL_001_X_MASK_", "EMIT_L2A_MASK_001_X",
        "EMIT_L2A_RFLUNCERT_001_X"]).2.1 = some "EMIT_L2A_RFL_001_X_MASK_"
    ∧ ("EMIT_L2A_RFL_001_X_MASK_" : String) ≠ "EMIT_L2A_MASK_001_X" := by
  constructor
  · decide
  · decide

/-- C6 amended: when each filename carries only its own role token (the
first contains `_RFL_` and neither `_MASK_` nor `_RFLUNCERT_`, the second
contains `_MASK_` and not `_RFLUNCERT_`, the third contains
`_RFLUNCERT_`), `_identify_files` assigns every role correctly; any file
assigned the reflectance role never contains `_RFLUNCERT_`, so the
uncertainty file is never classified as the reflectance file; and if with
a well-formed identifier any of the three roles cannot be identified from
the data links, retrieval raises the `ValueError` with an empty trace,
before any download. -/
theorem identify_files_amended :
    (∀ f1 f2 f3 : String,
        strContains f1 "_RFL_" = true → strContains f1 "_RFLUNCERT_" = false →
        strContains f1 "_MASK_" = false → strContains f2 "_MASK_" = true →
        strContains f2 "_RFLUNCERT_" = false → strContains f3 "_RFLUNCERT_" = true →
        _identify_files [f1, f2, f3] = (some f1, some f2, some f3))
    ∧ (∀ (files : List String) (rf : String),
        (_identify_files files).1 = some rf → strContains rf "_RFLUNCERT_" = false)
    ∧ (∀ (links : List String) (dd : String) (mr : Nat) (d : ℚ) (skip : Bool)
        (env : Env) (fs0 : FS) (l0 : String) (rest : List String),
        links = l0 :: rest →
        strStartsWith (granule_ID_of l0) "EMIT_L2A_RFL_001_" = true →
        ((_identify_files (expected_local_files dd l0 links)).1 = none
          ∨ (_identify_files (expected_local_files dd l0 links)).2.1 = none
          ∨ (_identify_files (expected_local_files dd l0 links)).2.2 = none) →
        (retrieve_EMIT_L2A_RFL_granule links dd mr d skip env fs0).result
            = .error .rolesUnidentified
          ∧ (retrieve_EMIT_L2A_RFL_granule links dd mr d skip env fs0).trace = []) := by
  refine ⟨?_, ?_, ?_⟩
  · intro f1 f2 f3 h1 h1u h1m h2 h2u h3
    simp [_identify_files, List.find?, h1, h1u, h1m, h2, h2u, h3]
  · intro files rf h
    simp only [_identify_files] at h
    have hp := List.find?_some h
    simp only [Bool.and_eq_true, Bool.not_eq_true'] at hp
    exact hp.2
  · intro links dd mr d skip env fs0 l0 rest hl hID hnone
    subst hl
    rcases hfid : _identify_files (expected_local_files dd l0 (l0 :: rest))
      with ⟨o1, o2, o3⟩
    rw [hfid] at hnone
    cases o1 with
    | none => constructor <;> simp [retrieve_EMIT_L2A_RFL_granule, hID, hfid]
    | some rv =>
      cases o2 with
      | none => constructor <;> simp [retrieve_EMIT_L2A_RFL_granule, hID, hfid]
      | some mv =>
        cases o3 with
        | none => constructor <;> simp [retrieve_EMIT_L2A_RFL_granule, hID, hfid]
        | some uv => simp at hnone

/-- Witness for the amended C6 at realistic EMIT filenames (note the
uncertainty filename, which contains `_RFLUNCERT_`, is assigned the
uncertainty role, not the reflectance role). -/
theorem identify_files_amended_witness :
    strContains "EMIT_L2A_RFL_001_G.nc" "_RFL_" = true
    ∧ _identify_files ["EMIT_L2A_RFL_001_G.nc", "EMIT_L2A_MASK_001_G.nc",
        "EMIT_L2A_RFLUNCERT_001_G.nc"]
      = (some "EMIT_L2A_RFL_001_G.nc", some "EMIT_L2A_MASK_001_G.nc",
         some "EMIT_L2A_RFLUNCERT_001_G.nc") :=
  ⟨by decide,
   identify_files_amended.1 "EMIT_L2A_RFL_001_G.nc" "EMIT_L2A_MASK_001_G.nc"
     "EMIT_L2A_RFLUNCERT_001_G.nc" (by decide) (by decide) (by decide)
     (by decide) (by decide) (by decide)⟩

/-- C8 counterexample: an existing file whose sampled size is constant —
in particular unchanged across 2 consecutive samples — with
`max_checks = 2`: `wait_for_file_stability` returns false, not true, so
stability is not declared as soon as the size is unchanged across 2
consecutive samples. -/
theorem stability_needs_three_samples_counterexample :
    wait_for_file_stability true (fun _ => Except.ok 5) true 2 = false := by
  decide

/-- From any loop state, once the sampling walk reaches three consecutive
equal sizes with no stat exception on the way, the loop reports stability
(possibly earlier, never later), whatever the previous size and counter
were, as long as the budget covers the triple. -/
theorem stabilityLoop_reaches_stable (samples : Nat → Except Unit Nat) :
    ∀ (j : Nat), ∀ (fuel i sc : Nat) (prev : Option Nat),
      (∀ t, t ≤ j + 2 → ∃ v, samples (i + t) = .ok v) →
      (∃ v, samples (i + j) = .ok v ∧ samples (i + j + 1) = .ok v
        ∧ samples (i + j + 2) = .ok v) →
      j + 3 ≤ fuel →
      stabilityLoop samples true i prev sc fuel = true := by
  intro j
  induction j with
  | zero =>
    intro fuel i sc prev _ htr hf
    obtain ⟨f, rfl⟩ : ∃ f, fuel = f + 3 := ⟨fuel - 3, by omega⟩
    obtain ⟨v, h0, h1, h2⟩ := htr
    rw [show i + 0 = i from rfl] at h0
    rw [show i + 0 + 1 = i + 1 from rfl] at h1
    have h2' : samples (i + 1 + 1) = .ok v := by
      rw [show i + 1 + 1 = i + 0 + 2 from by omega]; exact h2
    rw [show f + 3 = f + 2 + 1 from rfl]
    cases prev with
    | none =>
      simp only [stabilityLoop, h0, h1, h2']
      split_ifs <;> first | rfl | omega
    | some pv =>
      simp only [stabilityLoop, h0, h1, h2']
      split_ifs <;> first | rfl | omega
  | succ j ih =>
    intro fuel i sc prev hok htr hf
    obtain ⟨f, rfl⟩ : ∃ f, fuel = f + 1 := ⟨fuel - 1, by omega⟩
    obtain ⟨v0, h0⟩ := hok 0 (by omega)
    rw [show i + 0 = i from rfl] at h0
    have hok' : ∀ t, t ≤ j + 2 → ∃ v, samples (i + 1 + t) = .ok v := by
      intro t ht
      obtain ⟨v, hv⟩ := hok (t + 1) (by omega)
      exact ⟨v, by rw [show i + 1 + t = i + (t + 1) from by omega]; exact hv⟩
    have htr' : ∃ v, samples (i + 1 + j) = .ok v ∧ samples (i + 1 + j + 1) = .ok v
        ∧ samples (i + 1 + j + 2) = .ok v := by
      obtain ⟨v, ha, hb, hc⟩ := htr
      refine ⟨v, ?_, ?_, ?_⟩
      · rw [show i + 1 + j = i + (j + 1) from by omega]; exact ha
      · rw [show i + 1 + j + 1 = i + (j + 1) + 1 from by omega]; exact hb
      · rw [show i + 1 + j + 2 = i + (j + 1) + 2 from by omega]; exact hc
    have hf' : j + 3 ≤ f := by omega
    cases prev with
    | none =>
      simp only [stabilityLoop, h0]
      exact ih f (i + 1) sc (some v0) hok' htr' hf'
    | some pv =>
      simp only [stabilityLoop, h0]
      by_cases hpv : v0 = pv
      · rw [if_pos hpv]
        by_cases hsc : sc + 1 ≥ 2
        · rw [if_pos hsc]
        · rw [if_neg hsc]
          exact ih f (i + 1) (sc + 1) (some v0) hok' htr' hf'
      · rw [if_neg hpv]
        exact ih f (i + 1) 0 (some v0) hok' htr' hf'

/-- Soundness of the stability verdict: a true result means three
consecutive samples inside the budget window were equal (the counter
reaches 2 only through two consecutive unchanged comparisons).  The
hypotheses tie the loop state to the sampling history and hold at entry. -/
theorem stabilityLoop_true_triple (samples : Nat → Except Unit Nat) :
    ∀ (fuel i sc : Nat) (prev : Option Nat),
      (prev = none → sc = 0) →
      (∀ pv, prev = some pv → 1 ≤ i ∧ samples (i - 1) = .ok pv) →
      (1 ≤ sc → 2 ≤ i ∧ ∃ v, samples (i - 2) = .ok v ∧ samples (i - 1) = .ok v) →
      stabilityLoop samples true i prev sc fuel = true →
      ∃ j v, j + 2 < i + fuel ∧ samples j = .ok v
        ∧ samples (j + 1) = .ok v ∧ samples (j + 2) = .ok v := by
  intro fuel
  induction fuel with
  | zero =>
    intro i sc prev _ _ _ h
    simp only [stabilityLoop] at h
    exact absurd h (by decide)
  | succ f ih =>
    intro i sc prev hnone hprev hsc h
    rcases h0 : samples i with e | cur
    · simp only [stabilityLoop, h0] at h
      exact absurd h (by decide)
    · cases prev with
      | none =>
        have hsc0 : sc = 0 := hnone rfl
        subst hsc0
        simp only [stabilityLoop, h0] at h
        obtain ⟨j, v, hj, ha, hb, hc⟩ :=
          ih (i + 1) 0 (some cur)
            (fun hh => Option.noConfusion hh)
            (by
              intro pv hpv
              injection hpv with e
              refine ⟨by omega, ?_⟩
              rw [show i + 1 - 1 = i from by omega, ← e]
              exact h0)
            (fun hh => absurd hh (by omega)) h
        exact ⟨j, v, by omega, ha, hb, hc⟩
      | some pv =>
        simp only [stabilityLoop, h0] at h
        by_cases hcp : cur = pv
        · rw [if_pos hcp] at h
          by_cases h2 : sc + 1 ≥ 2
          · obtain ⟨hi2, v, ha, hb⟩ := hsc (by omega)
            obtain ⟨hi1, hpv'⟩ := hprev pv rfl
            have hvpv : v = pv := by
              rw [hpv'] at hb
              injection hb with e
              exact e.symm
            refine ⟨i - 2, v, by omega, ha, ?_, ?_⟩
            · rw [show i - 2 + 1 = i - 1 from by omega]
              rw [hpv', hvpv]
            · rw [show i - 2 + 2 = i from by omega, h0, hcp, hvpv]
          · rw [if_neg h2] at h
            obtain ⟨hi1, hpv'⟩ := hprev pv rfl
            obtain ⟨j, v, hj, ha, hb, hc⟩ :=
              ih (i + 1) (sc + 1) (some cur)
                (fun hh => Option.noConfusion hh)
                (by
                  intro pv' hpv2
                  injection hpv2 with e
                  refine ⟨by omega, ?_⟩
                  rw [show i + 1 - 1 = i from by omega, ← e]
                  exact h0)
                (by
                  intro _
                  refine ⟨by omega, pv, ?_, ?_⟩
                  · rw [show i + 1 - 2 = i - 1 from by omega]
                    exact hpv'
                  · rw [show i + 1 - 1 = i from by omega, h0, hcp]) h
            exact ⟨j, v, by omega, ha, hb, hc⟩
        · rw [if_neg hcp] at h
          obtain ⟨j, v, hj, ha, hb, hc⟩ :=
            ih (i + 1) 0 (some cur)
              (fun hh => Option.noConfusion hh)
              (by
                intro pv' hpv2
                injection hpv2 with e
                refine ⟨by omega, ?_⟩
                rw [show i + 1 - 1 = i from by omega, ← e]
                exact h0)
              (fun hh => absurd hh (by omega)) h
          exact ⟨j, v, by omega, ha, hb, hc⟩

/-- C8 amended: for every existing file, `wait_for_file_stability`
declares the file stable as soon as its sampled size is unchanged across 3
consecutive samples (2 consecutive unchanged comparisons, matching the
`stable_count >= 2` threshold): whenever samples `j`, `j + 1` and `j + 2`
are equal, fall inside the `max_checks` budget and no stat exception
occurred up to them, the result is true regardless of every later sample —
i.e. it returns true at that point without waiting out the remaining
checks.  It returns false if the file does not exist, if an exception
occurs while stat-ing, and whenever no 3 consecutive equal readings occur
within the `max_checks` budget (exhaustion). -/
theorem wait_for_file_stability_amended :
    (∀ (samples : Nat → Except Unit Nat) (mc j : Nat),
        (∀ t, t ≤ j + 2 → ∃ v, samples t = .ok v) →
        (∃ v, samples j = .ok v ∧ samples (j + 1) = .ok v
          ∧ samples (j + 2) = .ok v) →
        j + 2 < mc →
        wait_for_file_stability true samples true mc = true)
    ∧ (∀ (samples : Nat → Except Unit Nat) (cs : Bool) (mc : Nat),
        wait_for_file_stability false samples cs mc = false)
    ∧ (∀ (samples : Nat → Except Unit Nat) (cs : Bool) (i : Nat)
        (prev : Option Nat) (sc fuel : Nat),
        samples i = .error () →
        stabilityLoop samples cs i prev sc (fuel + 1) = false)
    ∧ (∀ (ex : Bool) (samples : Nat → Except Unit Nat) (mc : Nat),
        (¬ ∃ j v, j + 2 < mc ∧ samples j = .ok v ∧ samples (j + 1) = .ok v
          ∧ samples (j + 2) = .ok v) →
        wait_for_file_stability ex samples true mc = false) := by
  refine ⟨?_, ?_, ?_, ?_⟩
  · intro samples mc j hok htr hj
    show stabilityLoop samples true 0 none 0 mc = true
    apply stabilityLoop_reaches_stable samples j mc 0 0 none
    · intro t ht
      obtain ⟨v, hv⟩ := hok t ht
      exact ⟨v, by rw [show (0 : Nat) + t = t from by omega]; exact hv⟩
    · obtain ⟨v, ha, hb, hc⟩ := htr
      refine ⟨v, ?_, ?_, ?_⟩
      · rw [show (0 : Nat) + j = j from by omega]; exact ha
      · rw [show (0 : Nat) + j + 1 = j + 1 from by omega]; exact hb
      · rw [show (0 : Nat) + j + 2 = j + 2 from by omega]; exact hc
    · omega
  · intro samples cs mc
    rfl
  · intro samples cs i prev sc fuel h
    simp only [stabilityLoop, h]
  · intro ex samples mc hnone
    cases ex with
    | false => rfl
    | true =>
      show stabilityLoop samples true 0 none 0 mc = false
      cases hres : stabilityLoop samples true 0 none 0 mc with
      | false => rfl
      | true =>
        obtain ⟨j, v, hj, ha, hb, hc⟩ :=
          stabilityLoop_true_triple samples mc 0 0 none (fun _ => rfl)
            (fun pv hpv => Option.noConfusion hpv)
            (fun hh => absurd hh (by omega)) hres
        exact absurd ⟨j, v, by omega, ha, hb, hc⟩ hnone

/-- Witness for the amended C8: three equal samples of an existing file
starting at index 0 with `max_checks = 3` yield true; strictly growing
samples with a budget of 10 yield false. -/
theorem wait_for_file_stability_amended_witness :
    ((0 : Nat) + 2 < 3)
    ∧ wait_for_file_stability true (fun _ => Except.ok 5) true 3 = true
    ∧ wait_for_file_stability true (fun j => Except.ok j) true 10 = false :=
  ⟨by decide,
   wait_for_file_stability_amended.1 (fun _ => Except.ok 5) 3 0
     (fun t _ => ⟨5, rfl⟩) ⟨5, rfl, rfl, rfl⟩ (by decide),
   wait_for_file_stability_amended.2.2.2 true (fun j => Except.ok j) 10
     (by
       rintro ⟨j, v, hj, h0, h1, h2⟩
       simp only [Except.ok.injEq] at h0 h1
       omega)⟩

/-- C10: with fewer than 3 checks the stability counter can never reach
the return threshold of 2, so `wait_for_file_stability` always returns
false — even for a perfectly constant file size and even regardless of
whether the file exists. -/
theorem stability_small_max_checks_false (ex : Bool)
    (samples : Nat → Except Unit Nat) (mc : Nat) (h : mc < 3) :
    wait_for_file_stability ex samples true mc = false := by
  cases ex with
  | false => rfl
  | true =>
    show stabilityLoop samples true 0 none 0 mc = false
    interval_cases mc
    · rfl
    · rw [show (1 : Nat) = 0 + 1 from rfl]
      rcases h0 : samples 0 with e | v <;> simp [stabilityLoop, h0]
    · rw [show (2 : Nat) = 0 + 1 + 1 from rfl]
      rcases h0 : samples 0 with e | v0
      · simp [stabilityLoop, h0]
      · rcases h1 : samples 1 with e | v1
        · simp [stabilityLoop, h0, h1]
        · by_cases hv : v1 = v0 <;> simp [stabilityLoop, h0, h1, hv]

/-- Witness for C10: a constant-size existing file with `max_checks = 2`
still yields false. -/
theorem stability_small_max_checks_false_witness :
    (2 : Nat) < 3
    ∧ wait_for_file_stability true (fun _ => Except.ok 7) true 2 = false :=
  ⟨by decide, stability_small_max_checks_false true (fun _ => Except.ok 7) 2 (by decide)⟩

/-- C9 counterexample: an existing path whose single unlink attempt raises
(`max_attempts = 1`): the trace records the unlink call but no sleep and
no re-check after that final attempt, so `safe_file_remove` does not sleep
after each attempt nor re-check non-existence after each attempt. -/
theorem remove_final_failure_no_sleep_counterexample :
    safe_file_remove true (fun _ => false) 1 = (false, [RemoveEvent.unlinkCall]) := by
  decide

/-- When every unlink attempt in the window fails, the loop returns false,
performs one unlink per attempt, and sleeps after every attempt except the
last. -/
theorem removeLoop_all_fail (unlinkOk : Nat → Bool) (ma : Nat)
    (hall : ∀ k, k < ma → unlinkOk k = false) :
    ∀ (fuel a : Nat), a + fuel = ma →
      (removeLoop unlinkOk ma a fuel).1 = false
      ∧ (removeLoop unlinkOk ma a fuel).2.count RemoveEvent.unlinkCall = fuel
      ∧ (removeLoop unlinkOk ma a fuel).2.count RemoveEvent.sleepDelay = fuel - 1 := by
  intro fuel
  induction fuel with
  | zero => intro a ha; exact ⟨rfl, rfl, rfl⟩
  | succ f ih =>
    intro a ha
    have hfa : unlinkOk a = false := hall a (by omega)
    have htail := ih (a + 1) (by omega)
    simp only [removeLoop, hfa, Bool.false_eq_true, if_false]
    cases f with
    | zero =>
      have hlt : ¬ a < ma - 1 := by omega
      refine ⟨htail.1, ?_, ?_⟩ <;>
        simp [hlt, List.count_cons, List.count_append, htail.2.1, htail.2.2]
    | succ f' =>
      have hlt : a < ma - 1 := by omega
      refine ⟨htail.1, ?_, ?_⟩ <;>
        simp [hlt, List.count_cons, List.count_append, htail.2.1, htail.2.2]

/-- A false result from the attempt loop means every unlink attempt of the
window raised. -/
theorem removeLoop_false_all_fail (unlinkOk : Nat → Bool) (ma : Nat) :
    ∀ (fuel a : Nat), (removeLoop unlinkOk ma a fuel).1 = false →
      ∀ j, j < fuel → unlinkOk (a + j) = false := by
  intro fuel
  induction fuel with
  | zero => intro a h j hj; exact absurd hj (by omega)
  | succ f ih =>
    intro a h j hj
    cases hua : unlinkOk a with
    | true => simp [removeLoop, hua] at h
    | false =>
      simp only [removeLoop, hua, Bool.false_eq_true, if_false] at h
      cases j with
      | zero => simpa using hua
      | succ j' =>
        rw [show a + (j' + 1) = a + 1 + j' from by omega]
        exact ih (a + 1) h j' (by omega)

/-- C9 amended: `safe_file_remove` on a nonexistent path returns true with
no side effects (no unlink, no sleep, no re-check); on an existing path it
attempts unlink up to `max_attempts` times, and when every attempt raises
it performs exactly `max_attempts` unlink calls with a sleep after every
attempt except the final one and returns false; a false result occurs only
when the path existed and every unlink attempt failed, i.e. only when the
path still exists after the final attempt. -/
theorem safe_file_remove_amended :
    (∀ (unlinkOk : Nat → Bool) (ma : Nat),
        safe_file_remove false unlinkOk ma = (true, []))
    ∧ (∀ (unlinkOk : Nat → Bool) (ma : Nat), (∀ k, k < ma → unlinkOk k = false) →
        (safe_file_remove true unlinkOk ma).1 = false
          ∧ (safe_file_remove true unlinkOk ma).2.count RemoveEvent.unlinkCall = ma
          ∧ (safe_file_remove true unlinkOk ma).2.count RemoveEvent.sleepDelay = ma - 1)
    ∧ (∀ (ex : Bool) (unlinkOk : Nat → Bool) (ma : Nat),
        (safe_file_remove ex unlinkOk ma).1 = false →
        ex = true ∧ ∀ k, k < ma → unlinkOk k = false) := by
  refine ⟨fun unlinkOk ma => rfl, ?_, ?_⟩
  · intro unlinkOk ma hall
    exact removeLoop_all_fail unlinkOk ma hall ma 0 (by omega)
  · intro ex unlinkOk ma h
    cases ex with
    | false => simp [safe_file_remove] at h
    | true =>
      refine ⟨rfl, fun k hk => ?_⟩
      simpa using removeLoop_false_all_fail unlinkOk ma ma 0 h k hk

/-- Witness for the amended C9: three failing attempts give three unlink
calls, two sleeps and a false result. -/
theorem safe_file_remove_amended_witness :
    (∀ k, k < 3 → (fun _ => false : Nat → Bool) k = false)
    ∧ ((safe_file_remove true (fun _ => false) 3).1 = false
        ∧ (safe_file_remove true (fun _ => false) 3).2.count RemoveEvent.unlinkCall = 3
        ∧ (safe_file_remove true (fun _ => false) 3).2.count RemoveEvent.sleepDelay = 2) :=
  ⟨by decide, safe_file_remove_amended.2.1 (fun _ => false) 3 (by decide)⟩

/-- A validation pass over all-valid files does nothing. -/
theorem checkFiles_all_ok (L : List (String × String)) :
    ∀ fs : FS, (∀ pr ∈ L, validate_NetCDF_file (fs pr.1) false = .ok ()) →
      checkFiles fs L = ([], fs, []) := by
  induction L with
  | nil => intro fs _; rfl
  | cons pr rest ih =>
    intro fs h
    obtain ⟨p, s⟩ := pr
    rw [checkFiles_cons_ok fs p s rest (h (p, s) (by simp))]
    exact ih fs (fun pr' hpr' => h pr' (by simp [hpr']))

/-- Evaluation of the cache check in scenario C: the first tracked file is
invalid and present, the other two validate; exactly the first is removed
and queued. -/
theorem checkFiles_one_bad (fs : FS) (p1 p2 p3 s1 s2 s3 : String)
    (h21 : p2 ≠ p1) (h31 : p3 ≠ p1) (e : VErr)
    (hv1 : validate_NetCDF_file (fs p1) false = .error e)
    (h1e : isAbsent (fs p1) = false)
    (hv2 : validate_NetCDF_file (fs p2) false = .ok ())
    (hv3 : validate_NetCDF_file (fs p3) false = .ok ()) :
    checkFiles fs [(p1, s1), (p2, s2), (p3, s3)]
      = ([Event.removeFile p1], checkRemove fs p1, [p1]) := by
  rw [checkFiles_cons_error fs p1 s1 _ e hv1]
  rw [checkFiles_cons_ok _ p2 s2 _ (by rw [checkRemove_other fs p1 p2 h21]; exact hv2)]
  rw [checkFiles_cons_ok _ p3 s3 _ (by rw [checkRemove_other fs p1 p3 h31]; exact hv3)]
  simp [checkFiles, h1e]

/-- The transport invocation when exactly the first of the three local
files is missing: the batched request writes only that file and leaves the
two existing files untouched. -/
theorem doDownload_one_absent (c : Cfg) (env : Env) (k : Nat) (fs : FS)
    (p1 p2 p3 : String) (hlf : c.localFiles = [p1, p2, p3])
    (h21 : p2 ≠ p1) (h31 : p3 ≠ p1)
    (h1 : isAbsent (fs p1) = true)
    (h2 : isAbsent (fs p2) = false) (h3 : isAbsent (fs p3) = false) :
    (doDownload c env k fs).2 = [p1]
    ∧ (doDownload c env k fs).1 p1 = env.fetch k p1
    ∧ (doDownload c env k fs).1 p2 = fs p2
    ∧ (doDownload c env k fs).1 p3 = fs p3 := by
  refine ⟨?_, ?_, ?_, ?_⟩
  · simp [doDownload, hlf, h1, h2, h3]
  · simp [doDownload, hlf, h1, h2, h3]
  · simp [doDownload, hlf, h1, h2, h3, h21]
  · simp [doDownload, hlf, h1, h2, h3, h31]

/-- The repair iteration of scenario C: with only the first file missing,
a working transport and validation on, the iteration at `retry_count = 0`
emits the download invocation (writing only the first file), the three
stability waits and the pause; it leaves the other two files untouched and
empties the retry set. -/
theorem loopIter_repair (c : Cfg) (env : Env) (fs : FS) (p1 p2 p3 s1 s2 s3 : String)
    (hlf : c.localFiles = [p1, p2, p3])
    (hfi : c.fileInfo = [(p1, s1), (p2, s2), (p3, s3)])
    (hskip : c.skipValidation = false)
    (h21 : p2 ≠ p1) (h31 : p3 ≠ p1)
    (hok : env.fetchOk 0 = true)
    (h1 : isAbsent (fs p1) = true)
    (hv2 : validate_NetCDF_file (fs p2) false = .ok ())
    (hv3 : validate_NetCDF_file (fs p3) false = .ok ())
    (hf1 : validate_NetCDF_file (env.fetch 0 p1) false = .ok ()) :
    (loopIter c env 0 fs [p1]).1
        = [Event.download c.links [p1] 0, Event.stabilityWait p1,
           Event.stabilityWait p2, Event.stabilityWait p3,
           Event.stabilizePause ((1 : ℚ) / 2)]
    ∧ (loopIter c env 0 fs [p1]).2.1 p1 = env.fetch 0 p1
    ∧ (loopIter c env 0 fs [p1]).2.1 p2 = fs p2
    ∧ (loopIter c env 0 fs [p1]).2.1 p3 = fs p3
    ∧ (loopIter c env 0 fs [p1]).2.2 = [] := by
  have h2 : isAbsent (fs p2) = false := validate_ok_not_absent _ _ hv2
  have h3 : isAbsent (fs p3) = false := validate_ok_not_absent _ _ hv3
  obtain ⟨hw, hd1, hd2, hd3⟩ :=
    doDownload_one_absent c env 0 fs p1 p2 p3 hlf h21 h31 h1 h2 h3
  have habs1 : isAbsent ((doDownload c env 0 fs).1 p1) = false := by
    rw [hd1]; exact validate_ok_not_absent _ _ hf1
  have habs2 : isAbsent ((doDownload c env 0 fs).1 p2) = false := by rw [hd2]; exact h2
  have habs3 : isAbsent ((doDownload c env 0 fs).1 p3) = false := by rw [hd3]; exact h3
  have hV : checkFiles (doDownload c env 0 fs).1 c.fileInfo
      = ([], (doDownload c env 0 fs).1, []) := by
    apply checkFiles_all_ok
    intro pr hpr
    rw [hfi] at hpr
    simp only [List.mem_cons, List.not_mem_nil, or_false] at hpr
    rcases hpr with rfl | rfl | rfl
    · rw [show ((p1, s1) : String × String).1 = p1 from rfl, hd1]; exact hf1
    · rw [show ((p2, s2) : String × String).1 = p2 from rfl, hd2]; exact hv2
    · rw [show ((p3, s3) : String × String).1 = p3 from rfl, hd3]; exact hv3
  have hV' : checkFiles (doDownload c env 0 fs).1 [(p1, s1), (p2, s2), (p3, s3)]
      = ([], (doDownload c env 0 fs).1, []) := by
    rw [← hfi]; exact hV
  refine ⟨?_, ?_, ?_, ?_, ?_⟩
  · simp only [loopIter, hok, hskip, hfi, hV', hw]
    simp [habs1, habs2, habs3]
  · simp only [loopIter, hok, hskip, hV]
    simp [hd1]
  · simp only [loopIter, hok, hskip, hV]
    simp [hd2]
  · simp only [loopIter, hok, hskip, hV]
    simp [hd3]
  · simp only [loopIter, hok, hskip, hV]
    simp

/-- C7 counterexample: in the scenario with only the reflectance file
invalid in the cache, the single download-transport invocation is issued
with the full three-element data-link list (line 150 passes
`remote_granule.data_links()`), not a list covering the reflectance file
only; the transport then writes only the reflectance path. -/
theorem download_call_covers_all_links_counterexample :
    downloadsOf (retrieve_EMIT_L2A_RFL_granule
        ["https://h/EMIT_L2A_RFL_001_G.nc", "https://h/EMIT_L2A_MASK_001_G.nc",
         "https://h/EMIT_L2A_RFLUNCERT_001_G.nc"] "dl" 2 2 false
        ⟨fun _ => true, fun _ _ => FSFile.file ⟨10, .opened 2 3 true⟩⟩
        (fun q => if q = "dl/EMIT_L2A_RFL_001_G/EMIT_L2A_RFL_001_G.nc" then
            FSFile.file ⟨10, .opened 0 0 true⟩
          else if q = "dl/EMIT_L2A_RFL_001_G/EMIT_L2A_MASK_001_G.nc" then
            FSFile.file ⟨10, .opened 2 3 true⟩
          else if q = "dl/EMIT_L2A_RFL_001_G/EMIT_L2A_RFLUNCERT_001_G.nc" then
            FSFile.file ⟨10, .opened 2 3 true⟩
          else FSFile.absent)).trace
      = [Event.download
          ["https://h/EMIT_L2A_RFL_001_G.nc", "https://h/EMIT_L2A_MASK_001_G.nc",
           "https://h/EMIT_L2A_RFLUNCERT_001_G.nc"]
          ["dl/EMIT_L2A_RFL_001_G/EMIT_L2A_RFL_001_G.nc"] 0]
    ∧ (["https://h/EMIT_L2A_RFL_001_G.nc", "https://h/EMIT_L2A_MASK_001_G.nc",
        "https://h/EMIT_L2A_RFLUNCERT_001_G.nc"] : List String)
      ≠ ["https://h/EMIT_L2A_RFL_001_G.nc"] := by
  constructor
  · decide
  · decide

/-- C7 amended: when exactly the reflectance file is invalid (and present)
in the cache, the mask and uncertainty files are valid,
`skip_validation = False`, `max_retries = 2`, the transport works and
produces a valid reflectance file, then the retrieval performs exactly one
file removal (the reflectance path) and exactly one download-transport
invocation; that invocation's request lists the full data-link list but
writes only the reflectance file (the transport skips files already on
disk), and the mask and uncertainty files are untouched: never removed and
their on-disk states unchanged at exit. -/
theorem single_repair_cycle_amended (links : List String) (dd l0 : String)
    (rest : List String) (d : ℚ) (env : Env) (fs0 : FS) (p1 p2 p3 : String)
    (hl : links = l0 :: rest)
    (hID : strStartsWith (granule_ID_of l0) "EMIT_L2A_RFL_001_" = true)
    (hid : _identify_files (expected_local_files dd l0 links)
      = (some p1, some p2, some p3))
    (hlf : expected_local_files dd l0 links = [p1, p2, p3])
    (h21 : p2 ≠ p1) (h31 : p3 ≠ p1)
    (e : VErr) (hv1 : validate_NetCDF_file (fs0 p1) false = .error e)
    (h1e : isAbsent (fs0 p1) = false)
    (hv2 : validate_NetCDF_file (fs0 p2) false = .ok ())
    (hv3 : validate_NetCDF_file (fs0 p3) false = .ok ())
    (hok : env.fetchOk 0 = true)
    (hf1 : validate_NetCDF_file (env.fetch 0 p1) false = .ok ()) :
    (retrieve_EMIT_L2A_RFL_granule links dd 2 d false env fs0).result
        = .ok ⟨p1, p2, p3⟩
    ∧ removesOf (retrieve_EMIT_L2A_RFL_granule links dd 2 d false env fs0).trace
        = [Event.removeFile p1]
    ∧ downloadsOf (retrieve_EMIT_L2A_RFL_granule links dd 2 d false env fs0).trace
        = [Event.download links [p1] 0]
    ∧ (retrieve_EMIT_L2A_RFL_granule links dd 2 d false env fs0).fs p2 = fs0 p2
    ∧ (retrieve_EMIT_L2A_RFL_granule links dd 2 d false env fs0).fs p3 = fs0 p3 := by
  subst hl
  rw [retrieve_eq_core dd 2 d false env fs0 l0 rest p1 p2 p3 hID hid]
  have hclf : (buildCfg (l0 :: rest) dd l0 d false p1 p2 p3).localFiles
      = [p1, p2, p3] := by
    simpa [buildCfg, expected_local_files] using hlf
  have hA : initialCheck (buildCfg (l0 :: rest) dd l0 d false p1 p2 p3) fs0
      = ([Event.removeFile p1], checkRemove fs0 p1, [p1]) := by
    simp only [initialCheck, buildCfg, Bool.false_eq_true, if_false]
    exact checkFiles_one_bad fs0 p1 p2 p3 _ _ _ h21 h31 e hv1 h1e hv2 hv3
  obtain ⟨hI1, hIp1, hIp2, hIp3, hI5⟩ :=
    loopIter_repair (buildCfg (l0 :: rest) dd l0 d false p1 p2 p3) env
      (checkRemove fs0 p1) p1 p2 p3 "Reflectance" "Mask" "Uncertainty"
      hclf rfl rfl h21 h31 hok
      (by rw [checkRemove_self fs0 p1]; rfl)
      (by rw [checkRemove_other fs0 p1 p2 h21]; exact hv2)
      (by rw [checkRemove_other fs0 p1 p3 h31]; exact hv3)
      hf1
  have hloop : retryLoop (buildCfg (l0 :: rest) dd l0 d false p1 p2 p3) env 2 0
      (checkRemove fs0 p1) [p1]
      = ((loopIter (buildCfg (l0 :: rest) dd l0 d false p1 p2 p3) env 0
            (checkRemove fs0 p1) [p1]).1,
         (loopIter (buildCfg (l0 :: rest) dd l0 d false p1 p2 p3) env 0
            (checkRemove fs0 p1) [p1]).2.1, []) := by
    rw [show (2 : Nat) = 1 + 1 from rfl]
    simp only [retryLoop]
    rw [hI5]
    simp [retryLoop]
  refine ⟨?_, ?_, ?_, ?_, ?_⟩
  · simp [retrieveCore, hA, hloop]
  · rw [retrieveCore_trace]
    rw [hA]
    simp only [hloop, hI1]
    rfl
  · rw [retrieveCore_trace]
    rw [hA]
    simp only [hloop, hI1]
    rfl
  · rw [retrieveCore_fs]
    rw [hA]
    simp only [hloop]
    rw [hIp2, checkRemove_other fs0 p1 p2 h21]
  · rw [retrieveCore_fs]
    rw [hA]
    simp only [hloop]
    rw [hIp3, checkRemove_other fs0 p1 p3 h31]

/-- Witness for the amended C7: the concrete scenario-C cache (corrupted
reflectance, valid mask and uncertainty) with a working transport. -/
theorem single_repair_cycle_amended_witness :
    validate_NetCDF_file (FSFile.file ⟨10, .opened 0 0 true⟩) false
        = .error .NetCDFCorruptedError
    ∧ (retrieve_EMIT_L2A_RFL_granule
        ["https://h/EMIT_L2A_RFL_001_G.nc", "https://h/EMIT_L2A_MASK_001_G.nc",
         "https://h/EMIT_L2A_RFLUNCERT_001_G.nc"] "dl" 2 2 false
        ⟨fun _ => true, fun _ _ => FSFile.file ⟨10, .opened 2 3 true⟩⟩
        (fun q => if q = "dl/EMIT_L2A_RFL_001_G/EMIT_L2A_RFL_001_G.nc" then
            FSFile.file ⟨10, .opened 0 0 true⟩
          else if q = "dl/EMIT_L2A_RFL_001_G/EMIT_L2A_MASK_001_G.nc" then
            FSFile.file ⟨10, .opened 2 3 true⟩
          else if q = "dl/EMIT_L2A_RFL_001_G/EMIT_L2A_RFLUNCERT_001_G.nc" then
            FSFile.file ⟨10, .opened 2 3 true⟩
          else FSFile.absent)).result
      = .ok ⟨"dl/EMIT_L2A_RFL_001_G/EMIT_L2A_RFL_001_G.nc",
             "dl/EMIT_L2A_RFL_001_G/EMIT_L2A_MASK_001_G.nc",
             "dl/EMIT_L2A_RFL_001_G/EMIT_L2A_RFLUNCERT_001_G.nc"⟩
    ∧ removesOf (retrieve_EMIT_L2A_RFL_granule
        ["https://h/EMIT_L2A_RFL_001_G.nc", "https://h/EMIT_L2A_MASK_001_G.nc",
         "https://h/EMIT_L2A_RFLUNCERT_001_G.nc"] "dl" 2 2 false
        ⟨fun _ => true, fun _ _ => FSFile.file ⟨10, .opened 2 3 true⟩⟩
        (fun q => if q = "dl/EMIT_L2A_RFL_001_G/EMIT_L2A_RFL_001_G.nc" then
            FSFile.file ⟨10, .opened 0 0 true⟩
          else if q = "dl/EMIT_L2A_RFL_001_G/EMIT_L2A_MASK_001_G.nc" then
            FSFile.file ⟨10, .opened 2 3 true⟩
          else if q = "dl/EMIT_L2A_RFL_001_G/EMIT_L2A_RFLUNCERT_001_G.nc" then
            FSFile.file ⟨10, .opened 2 3 true⟩
          else FSFile.absent)).trace
      = [Event.removeFile "dl/EMIT_L2A_RFL_001_G/EMIT_L2A_RFL_001_G.nc"]
    ∧ downloadsOf (retrieve_EMIT_L2A_RFL_granule
        ["https://h/EMIT_L2A_RFL_001_G.nc", "https://h/EMIT_L2A_MASK_001_G.nc",
         "https://h/EMIT_L2A_RFLUNCERT_001_G.nc"] "dl" 2 2 false
        ⟨fun _ => true, fun _ _ => FSFile.file ⟨10, .opened 2 3 true⟩⟩
        (fun q => if q = "dl/EMIT_L2A_RFL_001_G/EMIT_L2A_RFL_001_G.nc" then
            FSFile.file ⟨10, .opened 0 0 true⟩
          else if q = "dl/EMIT_L2A_RFL_001_G/EMIT_L2A_MASK_001_G.nc" then
            FSFile.file ⟨10, .opened 2 3 true⟩
          else if q = "dl/EMIT_L2A_RFL_001_G/EMIT_L2A_RFLUNCERT_001_G.nc" then
            FSFile.file ⟨10, .opened 2 3 true⟩
          else FSFile.absent)).trace
      = [Event.download
          ["https://h/EMIT_L2A_RFL_001_G.nc", "https://h/EMIT_L2A_MASK_001_G.nc",
           "https://h/EMIT_L2A_RFLUNCERT_001_G.nc"]
          ["dl/EMIT_L2A_RFL_001_G/EMIT_L2A_RFL_001_G.nc"] 0] := by
  have h := single_repair_cycle_amended
    ["https://h/EMIT_L2A_RFL_001_G.nc", "https://h/EMIT_L2A_MASK_001_G.nc",
     "https://h/EMIT_L2A_RFLUNCERT_001_G.nc"] "dl"
    "https://h/EMIT_L2A_RFL_001_G.nc"
    ["https://h/EMIT_L2A_MASK_001_G.nc", "https://h/EMIT_L2A_RFLUNCERT_001_G.nc"] 2
    ⟨fun _ => true, fun _ _ => FSFile.file ⟨10, .opened 2 3 true⟩⟩
    (fun q => if q = "dl/EMIT_L2A_RFL_001_G/EMIT_L2A_RFL_001_G.nc" then
        FSFile.file ⟨10, .opened 0 0 true⟩
      else if q = "dl/EMIT_L2A_RFL_001_G/EMIT_L2A_MASK_001_G.nc" then
        FSFile.file ⟨10, .opened 2 3 true⟩
      else if q = "dl/EMIT_L2A_RFL_001_G/EMIT_L2A_RFLUNCERT_001_G.nc" then
        FSFile.file ⟨10, .opened 2 3 true⟩
      else FSFile.absent)
    "dl/EMIT_L2A_RFL_001_G/EMIT_L2A_RFL_001_G.nc"
    "dl/EMIT_L2A_RFL_001_G/EMIT_L2A_MASK_001_G.nc"
    "dl/EMIT_L2A_RFL_001_G/EMIT_L2A_RFLUNCERT_001_G.nc"
    rfl (by decide) (by decide) (by decide) (by decide) (by decide)
    .NetCDFCorruptedError (by decide) (by decide) (by decide) (by decide)
    rfl (by decide)
  exact ⟨by decide, h.1, h.2.1, h.2.2.1⟩
